import Mathlib

/-!
Shallow embedding of the money-market overseer contract
(`contracts/overseer`).  The repository ships the contract's test suite
(`src/contracts/overseer/src/testing/tests.rs`); the handler bodies are
reconstructed from the specification, with every numeric and message-level
behavior pinned to the exact values the test suite asserts (fixed-point
`Decimal` with 18 fractional digits, the `moneymarket` crate's
`decimal_division` / `decimal_multiplication` helpers that route through a
`1e9` scaling constant, sorted-by-key storage iteration, and so on).
-/

deriving instance DecidableEq for Except

namespace Overseer

/-- Scaling factor of `cosmwasm_std::Decimal`: 18 fractional decimal digits. -/
def E : Nat := 10 ^ 18

/-- The `moneymarket` crate's `DECIMAL_FRACTIONAL` constant (`1e9`) used by its
`decimal_division` / `decimal_multiplication` helpers. -/
def F : Nat := 10 ^ 9

/-- `Uint128 * Decimal` in cosmwasm: multiply and truncate (floor). -/
def uMulD (u d : Nat) : Nat := u * d / E

/-- `Decimal::from_ratio(p, q)`: `p/q` as a Decimal, truncated. -/
def fromRatioD (p q : Nat) : Nat := p * E / q

/-- `moneymarket::decimal_division(a, b) = Decimal::from_ratio(F * a, F * b)`
where `F * a` is a flooring `Uint128 * Decimal` product. -/
def decimalDivision (a b : Nat) : Nat := fromRatioD (uMulD F a) (uMulD F b)

/-- `moneymarket::decimal_multiplication(a, b) = Decimal::from_ratio((F * a) * b, F)`
where both products floor at `Uint128` granularity. -/
def decimalMultiplication (a b : Nat) : Nat := fromRatioD (uMulD (uMulD F a) b) F

/-- `Decimal::percent n`. -/
def percent (n : Nat) : Nat := n * E / 100

/-- `Decimal::permille n`. -/
def permille (n : Nat) : Nat := n * E / 1000

/-- Lexicographic byte order on keys, matching iteration order of the
contract's key-value storage. -/
def charListLt : List Char → List Char → Bool
  | _, [] => false
  | [], _ :: _ => true
  | a :: as, b :: bs =>
    if a.toNat < b.toNat then true
    else if b.toNat < a.toNat then false
    else charListLt as bs

/-- Storage key order on addresses / token identities. -/
def strLtB (a b : String) : Bool := charListLt a.data b.data

/-- Lookup in an association list (storage read). -/
def alistGet {α : Type} : List (String × α) → String → Option α
  | [], _ => none
  | (k, v) :: rest, t => if t = k then some v else alistGet rest t

/-- Insert/overwrite in an association list kept sorted ascending by key,
matching the storage's ordered iteration. -/
def alistInsert {α : Type} : List (String × α) → String → α → List (String × α)
  | [], k, v => [(k, v)]
  | (k', v') :: rest, k, v =>
    if k = k' then (k, v) :: rest
    else if strLtB k k' then (k, v) :: (k', v') :: rest
    else (k', v') :: alistInsert rest k v

/-- Amount currently recorded for a key, zero when absent. -/
def lookupD (l : List (String × Nat)) (k : String) : Nat := (alistGet l k).getD 0

/-- Increment a ledger entry (used by `LockCollateral`). -/
def addAmount (l : List (String × Nat)) (k : String) (a : Nat) : List (String × Nat) :=
  alistInsert l k (lookupD l k + a)

/-- Decrement a ledger entry; `none` when the key is absent or holds less than
the requested amount (the `Tokens::sub` underflow check).  An entry that
reaches zero is removed. -/
def subAmount : List (String × Nat) → String → Nat → Option (List (String × Nat))
  | [], _, _ => none
  | (k, v) :: rest, t, a =>
    if t = k then
      if a ≤ v then some (if v - a = 0 then rest else (k, v - a) :: rest)
      else none
    else
      match subAmount rest t a with
      | some rest' => some ((k, v) :: rest')
      | none => none

/-- Apply a whole batch of unlock decrements left to right; `none` as soon as
any pair requests more than is currently held. -/
def decrementBatch : List (String × Nat) → List (String × Nat) → Option (List (String × Nat))
  | cur, [] => some cur
  | cur, p :: rest =>
    match subAmount cur p.1 p.2 with
    | some cur' => decrementBatch cur' rest
    | none => none

/-- Config singleton, as created by `InitMsg`. -/
structure Config where
  owner_addr : String
  oracle_contract : String
  market_contract : String
  base_denom : String
  distribution_threshold : Nat
  target_deposit_rate : Nat
  buffer_distribution_rate : Nat
deriving DecidableEq, Repr

/-- One whitelist registry value: custody collaborator and LTV ratio. -/
structure WhitelistElem where
  custody_contract : String
  ltv : Nat
deriving DecidableEq, Repr

/-- Epoch controller state singleton. -/
structure EpochState where
  deposit_rate : Nat
  prev_a_token_supply : Nat
  prev_exchange_rate : Nat
  last_executed_height : Nat
deriving DecidableEq, Repr

/-- Whole persistent contract state. -/
structure State where
  config : Config
  whitelist : List (String × WhitelistElem)
  collaterals : List (String × List (String × Nat))
  epoch_state : EpochState
deriving DecidableEq, Repr

/-- External collaborators (oracle, market, tax module) and the contract's own
bank balance, as synchronous query environments. -/
structure Externals where
  oraclePrice : String → String → Option Nat
  loanAmount : String → Nat
  marketEpoch : Nat × Nat
  taxRate : Nat
  taxCap : Nat
  contractBalance : Nat

/-- Outbound instructions to collaborators. -/
inductive OutMsg where
  | lockMsg (contract borrower : String) (amount : Nat)
  | unlockMsg (contract borrower : String) (amount : Nat)
  | distributeRewards (contract : String)
  | bankSend (toAddress denom : String) (amount : Nat)
deriving DecidableEq, Repr

/-- Result of a handler: error, or new state plus outbound messages and logs. -/
abbrev HandleResult := Except String (State × List OutMsg × List (String × String))

/-- Left-pad a digit string with zeros up to `n` characters. -/
def padLeftZeros (s : List Char) (n : Nat) : List Char :=
  List.replicate (n - s.length) '0' ++ s

/-- Drop trailing `'0'` characters. -/
def trimTrailingZeros (s : List Char) : List Char :=
  (s.reverse.dropWhile (fun c => c == '0')).reverse

/-- Display of a `Decimal` as in the contract's logs: integer part, then the
18-digit fractional part with trailing zeros trimmed (omitted when zero). -/
def decimalToString (d : Nat) : String :=
  let whole := d / E
  let frac := d % E
  if frac = 0 then Nat.repr whole
  else Nat.repr whole ++ "." ++ String.mk (trimTrailingZeros (padLeftZeros (Nat.repr frac).data 18))

/-- The message for `InstantiateMsg`; mirrors `InitMsg` of the contract. -/
structure InitMsg where
  owner_addr : String
  oracle_contract : String
  market_contract : String
  base_denom : String
  distribution_threshold : Nat
  target_deposit_rate : Nat
  buffer_distribution_rate : Nat
deriving DecidableEq, Repr

/-- Modelled from the spec: `Initialize` creates the Config and a zeroed
`EpochState` (`deposit_rate = 0`, `prev_a_token_supply = 0`,
`prev_exchange_rate = 1`, `last_executed_height` = current height).  The
handler body `init` is absent from the sources; only its test
(`tests.rs::proper_initialization`) is. -/
def init (msg : InitMsg) (height : Nat) : State :=
  { config :=
      { owner_addr := msg.owner_addr
        oracle_contract := msg.oracle_contract
        market_contract := msg.market_contract
        base_denom := msg.base_denom
        distribution_threshold := msg.distribution_threshold
        target_deposit_rate := msg.target_deposit_rate
        buffer_distribution_rate := msg.buffer_distribution_rate }
    whitelist := []
    collaterals := []
    epoch_state :=
      { deposit_rate := 0
        prev_a_token_supply := 0
        prev_exchange_rate := E
        last_executed_height := height } }

/-- Modelled from the spec: owner-only whitelist registration with LTV bound
check, emitting the audit log asserted in `tests.rs::whitelist`.  The handler
body is absent from the sources; only its test is. -/
def whitelistHandler (st : State) (sender token custody : String) (ltv : Nat) : HandleResult :=
  if sender ≠ st.config.owner_addr then .error "unauthorized"
  else if E < ltv then .error "ltv must be smaller than 1"
  else .ok ({ st with whitelist := alistInsert st.whitelist token ⟨custody, ltv⟩ }, [],
    [("action", "register_whitelist"), ("collateral_token", token),
     ("custody_contract", custody), ("LTV", decimalToString ltv)])

/-- Collateral positions of one borrower (sorted ascending by token). -/
def borrowerColl (st : State) (borrower : String) : List (String × Nat) :=
  (alistGet st.collaterals borrower).getD []

/-- Replace one borrower's collateral positions. -/
def setBorrowerColl (st : State) (borrower : String) (l : List (String × Nat)) : State :=
  { st with collaterals := alistInsert st.collaterals borrower l }

/-- Modelled from the spec: `LockCollateral` requires every token to be
whitelisted, increments the ledger, and emits one custody lock instruction per
pair, addressed to the registered custody contract, in batch order
(`tests.rs::lock_collateral`).  The handler body is absent from the sources. -/
def lockCollateral (st : State) (sender : String) (colls : List (String × Nat)) : HandleResult :=
  match colls.mapM (fun p =>
      match alistGet st.whitelist p.1 with
      | none => Except.error "Token is not whitelisted"
      | some elem => Except.ok (OutMsg.lockMsg elem.custody_contract sender p.2)) with
  | .error e => .error e
  | .ok msgs =>
    let newColl := colls.foldl (fun cur p => addAmount cur p.1 p.2) (borrowerColl st sender)
    .ok (setBorrowerColl st sender newColl, msgs,
      [("action", "lock_collateral"), ("borrower", sender)])

/-- Borrow-limit calculator: for each position of the borrower, look up the
whitelist LTV and the oracle price (base denom per collateral unit) and sum the
truncated products `(amount * price) * ltv`. -/
def computeBorrowLimit (st : State) (ext : Externals) (borrower : String) : Except String Nat :=
  (borrowerColl st borrower).foldlM (fun acc p =>
    match alistGet st.whitelist p.1 with
    | none => Except.error "Token is not whitelisted"
    | some elem =>
      match ext.oraclePrice st.config.base_denom p.1 with
      | none => Except.error "No price data"
      | some price => Except.ok (acc + uMulD (uMulD p.2 price) elem.ltv)) 0

/-- The `BorrowLimit` query. -/
def queryBorrowLimit (st : State) (ext : Externals) (borrower : String) : Except String Nat :=
  computeBorrowLimit st ext borrower

/-- Modelled from the spec: `UnlockCollateral` first applies the whole batch of
decrements (failing with `Cannot unlock more than you have` if any pair exceeds
the locked amount), then compares the borrow limit of the tentative ledger with
the borrower's current debt (failing with `Cannot unlock collateral more than
LTV` when smaller).  The handler body is absent from the sources; the tests pin
both error strings and — at `tests.rs` lines 596-607 — that each release
instruction is addressed to the collateral token itself, not to the registered
custody contract. -/
def unlockCollateral (st : State) (ext : Externals) (sender : String)
    (colls : List (String × Nat)) : HandleResult :=
  match decrementBatch (borrowerColl st sender) colls with
  | none => .error "Cannot unlock more than you have"
  | some newCur =>
    let st' := setBorrowerColl st sender newCur
    match computeBorrowLimit st' ext sender with
    | .error e => .error e
    | .ok limit =>
      if limit < ext.loanAmount sender then .error "Cannot unlock collateral more than LTV"
      else .ok (st', colls.map (fun p => OutMsg.unlockMsg p.1 sender p.2),
        [("action", "unlock_collateral"), ("borrower", sender)])

/-- Fixed epoch length (blocks), per the spec and `tests.rs`. -/
def EPOCH_PERIOD : Nat := 86400

/-- Tax-deduction helper of the Decimal utility: subtract the smaller of
`gross * tax_rate` (truncated) and the per-denomination cap. -/
def deductTax (ext : Externals) (amount : Nat) : Nat :=
  amount - min (uMulD amount ext.taxRate) ext.taxCap

/-- Per-block deposit rate computed by the epoch controller:
`decimal_division(decimal_division(er, prev_er) - 1, blocks)`. -/
def epochDepositRate (st : State) (ext : Externals) (height : Nat) : Nat :=
  decimalDivision (decimalDivision ext.marketEpoch.2 st.epoch_state.prev_exchange_rate - E)
    (fromRatioD (height - st.epoch_state.last_executed_height) 1)

/-- Interest the epoch controller decides to distribute: when the computed
deposit rate is below `distribution_threshold`, the deposits missing to reach
the threshold over the elapsed blocks
(`prev_deposits * (threshold * blocks - deposit_rate * blocks)`, truncating as
the Decimal utility does), capped by `buffer_distribution_rate` of the
contract's balance; zero otherwise.  Reproduces `distributed_interest = 53706`
asserted in `tests.rs::execute_epoch_operations`. -/
def epochDistributedInterest (st : State) (ext : Externals) (height : Nat) : Nat :=
  let blocksDec := fromRatioD (height - st.epoch_state.last_executed_height) 1
  let depositRate := epochDepositRate st ext height
  if depositRate < st.config.distribution_threshold then
    let missingRate := decimalMultiplication st.config.distribution_threshold blocksDec -
      decimalMultiplication depositRate blocksDec
    let prevDeposits := uMulD st.epoch_state.prev_a_token_supply st.epoch_state.prev_exchange_rate
    min (uMulD prevDeposits missingRate) (uMulD ext.contractBalance st.config.buffer_distribution_rate)
  else 0

/-- Modelled from the spec: `ExecuteEpochOperations` gates on the elapsed epoch
period, computes the deposit rate from the market's exchange-rate growth,
optionally transfers interest (net of tax) to the market, fans out one
`DistributeRewards` instruction per whitelist entry in ascending token order,
and persists the new `EpochState`.  The handler body is absent from the
sources; every branch below is pinned to `tests.rs::execute_epoch_operations`. -/
def executeEpochOperations (st : State) (ext : Externals) (height : Nat) : HandleResult :=
  if height < st.epoch_state.last_executed_height + EPOCH_PERIOD then
    .error "Epoch period is not passed"
  else if decimalDivision ext.marketEpoch.2 st.epoch_state.prev_exchange_rate < E then
    .error "Decimal subtraction underflow"
  else
    .ok ({ st with epoch_state :=
            { deposit_rate := epochDepositRate st ext height
              prev_a_token_supply := ext.marketEpoch.1
              prev_exchange_rate := ext.marketEpoch.2
              last_executed_height := height } },
      (if 0 < epochDistributedInterest st ext height then
        [OutMsg.bankSend st.config.market_contract st.config.base_denom
          (deductTax ext (epochDistributedInterest st ext height))]
      else []) ++ st.whitelist.map (fun p => OutMsg.distributeRewards p.2.custody_contract),
      [("action", "epoch_operations"),
       ("distributed_interest", Nat.repr (epochDistributedInterest st ext height)),
       ("deposit_rate", decimalToString (epochDepositRate st ext height)),
       ("exchange_rate", decimalToString ext.marketEpoch.2),
       ("a_token_supply", Nat.repr ext.marketEpoch.1)])

/-- One element of the `Whitelist` query response. -/
structure WhitelistResponseElem where
  collateral_token : String
  custody_contract : String
  ltv : Nat
deriving DecidableEq, Repr

/-- The `Whitelist` query for one specific collateral token. -/
def queryWhitelistOne (st : State) (token : String) : List WhitelistResponseElem :=
  match alistGet st.whitelist token with
  | some e => [⟨token, e.custody_contract, e.ltv⟩]
  | none => []

/-- The `Collaterals` query: one borrower's positions, ascending by token. -/
def queryCollaterals (st : State) (borrower : String) : List (String × Nat) :=
  borrowerColl st borrower

/-- Extract the state of a successful handler result (scenario plumbing). -/
def okState (r : HandleResult) (fallback : State) : State :=
  match r with
  | .ok p => p.1
  | .error _ => fallback

/-- The `InitMsg` used by `tests.rs::unlock_collateral` (and most other tests). -/
def testInit : InitMsg :=
  ⟨"owner", "oracle", "market", "uusd", permille 3, permille 5, percent 20⟩

/-- Default block height of `cosmwasm_std::testing::mock_env`. -/
def mockHeight : Nat := 12345

/-- State after init and whitelisting bluna with custody `custody_bluna`. -/
def stW1 : State :=
  okState (whitelistHandler (init testInit mockHeight) "owner" "bluna" "custody_bluna" (percent 60))
    (init testInit mockHeight)

/-- State after additionally whitelisting batom with custody `custody_batom`. -/
def stW2 : State :=
  okState (whitelistHandler stW1 "owner" "batom" "custody_batom" (percent 60)) stW1

/-- State after `addr0000` locks 1,000,000 bluna and 10,000,000 batom. -/
def lockedState : State :=
  okState (lockCollateral stW2 "addr0000" [("bluna", 1000000), ("batom", 10000000)]) stW2

/-- Externals of `tests.rs::unlock_collateral`: oracle prices 1000 uusd/bluna
and 2000 uusd/batom, and the given outstanding loan of `addr0000`. -/
def unlockExt (debt : Nat) : Externals :=
  { oraclePrice := fun base quote =>
      if base == "uusd" && quote == "bluna" then some (1000 * E)
      else if base == "uusd" && quote == "batom" then some (2000 * E)
      else none
    loanAmount := fun b => if b == "addr0000" then debt else 0
    marketEpoch := (0, E)
    taxRate := 0
    taxCap := 0
    contractBalance := 0 }

/-- The `InitMsg` of `tests.rs::execute_epoch_operations`
(`distribution_threshold = Decimal::from_ratio(1, 1000000)`). -/
def epochInit : InitMsg :=
  ⟨"owner", "oracle", "market", "uusd", fromRatioD 1 1000000, permille 5, percent 20⟩

/-- Epoch-test state after init and the two whitelist registrations. -/
def epochStateInit : State :=
  let s0 := init epochInit mockHeight
  let s1 := okState (whitelistHandler s0 "owner" "bluna" "custody_bluna" (percent 60)) s0
  okState (whitelistHandler s1 "owner" "batom" "custody_batom" (percent 60)) s1

/-- Externals for the first epoch run: market reports supply 1,000,000 and
exchange rate 1.2; contract holds 10,000,000,000 uusd; no tax configured. -/
def epochExt1 : Externals :=
  { oraclePrice := fun _ _ => none
    loanAmount := fun _ => 0
    marketEpoch := (1000000, 12 * E / 10)
    taxRate := 0
    taxCap := 0
    contractBalance := 10000000000 }

/-- Externals for the second epoch run: exchange rate 1.25, tax rate 1% with
cap 1,000,000 uusd. -/
def epochExt2 : Externals :=
  { oraclePrice := fun _ _ => none
    loanAmount := fun _ => 0
    marketEpoch := (1000000, 125 * E / 100)
    taxRate := percent 1
    taxCap := 1000000
    contractBalance := 10000000000 }

/-- Result of the first successful epoch run (height 12345 + 86400). -/
def epochRun1 : HandleResult :=
  executeEpochOperations epochStateInit epochExt1 (mockHeight + 86400)

/-- State after the first epoch run. -/
def epochState1 : State := okState epochRun1 epochStateInit

/-- Result of the second epoch run (height 12345 + 172800). -/
def epochRun2 : HandleResult :=
  executeEpochOperations epochState1 epochExt2 (mockHeight + 172800)

/-- State after the second epoch run. -/
def epochState2 : State := okState epochRun2 epochState1

/-- The `Config` query. -/
def queryConfig (st : State) : Config := st.config

/-- The `EpochState` query. -/
def queryEpochState (st : State) : EpochState := st.epoch_state

/-- Recognizer for reward fan-out instructions. -/
def isDistributeRewards : OutMsg → Bool
  | .distributeRewards _ => true
  | _ => false

/-- Variant of the ledger state with parametric locked amounts `a` of bluna and
`b` of batom for `addr0000` (prices 1000 and 2000, LTV 0.6 each). -/
def posState (a b : Nat) : State :=
  setBorrowerColl stW2 "addr0000" [("batom", b), ("bluna", a)]

/-- Whitelist storage invariant: entries sorted strictly ascending by token. -/
def wlKeySorted (l : List (String × WhitelistElem)) : Prop :=
  List.Chain' (fun p q => strLtB p.1 q.1 = true) l

theorem E_pos : 0 < E := by norm_num [E]

theorem uMulD_mul_E (n c : Nat) : uMulD n (c * E) = n * c := by
  unfold uMulD
  rw [show n * (c * E) = n * c * E by ring]
  exact Nat.mul_div_cancel (n * c) E_pos

theorem term600 (n : Nat) : uMulD (uMulD n (1000 * E)) (percent 60) = 600 * n := by
  rw [uMulD_mul_E]
  have h1 : percent 60 = 6 * 10 ^ 17 := by norm_num [percent, E]
  unfold uMulD E
  rw [h1, show n * 1000 * (6 * 10 ^ 17) = 600 * n * 10 ^ 18 by ring]
  exact Nat.mul_div_cancel (600 * n) (by norm_num)

theorem term1200 (n : Nat) : uMulD (uMulD n (2000 * E)) (percent 60) = 1200 * n := by
  rw [uMulD_mul_E]
  have h1 : percent 60 = 6 * 10 ^ 17 := by norm_num [percent, E]
  unfold uMulD E
  rw [h1, show n * 2000 * (6 * 10 ^ 17) = 1200 * n * 10 ^ 18 by ring]
  exact Nat.mul_div_cancel (1200 * n) (by norm_num)

/-- C10: after Initialize, the Config query returns exactly the provided
values, and the EpochState query returns deposit_rate 0, prev_a_token_supply 0,
prev_exchange_rate 1 (= `E` in the fixed-point scale), and
last_executed_height equal to the instantiation height; instantiated on the
`proper_initialization` test inputs. -/
theorem c10_init_state (msg : InitMsg) (h : Nat) :
    queryConfig (init msg h) =
      ⟨msg.owner_addr, msg.oracle_contract, msg.market_contract, msg.base_denom,
       msg.distribution_threshold, msg.target_deposit_rate, msg.buffer_distribution_rate⟩ ∧
    queryEpochState (init msg h) = ⟨0, 0, E, h⟩ ∧
    queryConfig (init testInit mockHeight) =
      ⟨"owner", "oracle", "market", "uusd", permille 3, permille 5, percent 20⟩ ∧
    queryEpochState (init testInit mockHeight) = ⟨0, 0, E, 12345⟩ :=
  ⟨rfl, rfl, by decide, by decide⟩

/-- C9: a Whitelist operation from a non-owner fails with Unauthorized and a
whitelist registration by the owner succeeds, emits the audit record
{action="register_whitelist", collateral_token, custody_contract, LTV}, and
round-trips through the Whitelist query. -/
theorem c9_whitelist_roundtrip :
    (∀ (st : State) (sender token custody : String) (ltv : Nat),
        sender ≠ st.config.owner_addr →
        whitelistHandler st sender token custody ltv = .error "unauthorized") ∧
    whitelistHandler (init testInit mockHeight) "addr0000" "bluna" "custody" (percent 60) =
      .error "unauthorized" ∧
    whitelistHandler (init testInit mockHeight) "owner" "bluna" "custody" (percent 60) =
      .ok ({ init testInit mockHeight with whitelist := [("bluna", ⟨"custody", percent 60⟩)] },
        [],
        [("action", "register_whitelist"), ("collateral_token", "bluna"),
         ("custody_contract", "custody"), ("LTV", "0.6")]) ∧
    queryWhitelistOne
        (okState (whitelistHandler (init testInit mockHeight) "owner" "bluna" "custody"
          (percent 60)) (init testInit mockHeight)) "bluna" =
      [⟨"bluna", "custody", percent 60⟩] := by
  refine ⟨?_, by decide, by decide, by decide⟩
  intro st sender token custody ltv h
  unfold whitelistHandler
  rw [if_pos h]

/-- C9 witness: the non-owner branch of the authorization theorem applied at a
concrete caller. -/
theorem c9_whitelist_roundtrip_witness :
    whitelistHandler (init testInit mockHeight) "addr0001" "batom" "custody_batom" (percent 60) =
      .error "unauthorized" :=
  c9_whitelist_roundtrip.1 (init testInit mockHeight) "addr0001" "batom" "custody_batom"
    (percent 60) (by decide)

/-- C5: the first epoch run (exchange rate 1 → 1.2 over 86400 blocks) computes
deposit_rate exactly 0.000002314814814814 and reports distributed_interest 0
with a_token_supply 1000000; the second run (1.2 → 1.25 over another 86400
blocks) computes deposit_rate exactly 0.000000482253078703 and emits a fund
transfer to the market collaborator of gross amount 53706 sent net of tax
(53169 after the 1% tax). -/
theorem c5_epoch_rate_computation :
    epochRun1 = .ok (epochState1,
      [OutMsg.distributeRewards "custody_batom", OutMsg.distributeRewards "custody_bluna"],
      [("action", "epoch_operations"), ("distributed_interest", "0"),
       ("deposit_rate", "0.000002314814814814"), ("exchange_rate", "1.2"),
       ("a_token_supply", "1000000")]) ∧
    epochState1.epoch_state = ⟨2314814814814, 1000000, 12 * E / 10, mockHeight + 86400⟩ ∧
    epochRun2 = .ok (epochState2,
      [OutMsg.bankSend "market" "uusd" (deductTax epochExt2 53706),
       OutMsg.distributeRewards "custody_batom", OutMsg.distributeRewards "custody_bluna"],
      [("action", "epoch_operations"), ("distributed_interest", "53706"),
       ("deposit_rate", "0.000000482253078703"), ("exchange_rate", "1.25"),
       ("a_token_supply", "1000000")]) ∧
    epochState2.epoch_state = ⟨482253078703, 1000000, 125 * E / 100, mockHeight + 172800⟩ ∧
    deductTax epochExt2 53706 = 53169 ∧ 0 < deductTax epochExt2 53706 := by
  refine ⟨by decide, by decide, by decide, by decide, by decide, by decide⟩

/-- C3: evaluating the successful unlock of 1 bluna at debt 12,599,999,400
shows the release instruction is addressed to the collateral token address
`bluna` itself (as `tests.rs` lines 596-607 assert), while the whitelist
registers `custody_bluna` as the custody contract for bluna — the instruction
does not go to the registered custody contract. -/
theorem c3_unlock_message_recipient :
    unlockCollateral lockedState (unlockExt 12599999400) "addr0000" [("bluna", 1)] =
      .ok (setBorrowerColl lockedState "addr0000" [("batom", 10000000), ("bluna", 999999)],
        [OutMsg.unlockMsg "bluna" "addr0000" 1],
        [("action", "unlock_collateral"), ("borrower", "addr0000")]) ∧
    alistGet lockedState.whitelist "bluna" = some ⟨"custody_bluna", percent 60⟩ ∧
    "bluna" ≠ "custody_bluna" := by
  refine ⟨by decide, by decide, by decide⟩

/-- C8: the BorrowLimit query sums the per-position truncated products
`(amount * price) * ltv`: for positions b batom and a bluna it returns
`1200 * b + 600 * a`, hence exactly 12,600,000,000 at the test scenario's
positions (1,000,000 bluna ; 10,000,000 batom). -/
theorem c8_borrow_limit (a b : Nat) :
    queryBorrowLimit (posState a b) (unlockExt 0) "addr0000" = .ok (1200 * b + 600 * a) ∧
    uMulD (uMulD b (2000 * E)) (percent 60) = 1200 * b ∧
    uMulD (uMulD a (1000 * E)) (percent 60) = 600 * a ∧
    queryBorrowLimit lockedState (unlockExt 12599999400) "addr0000" = .ok 12600000000 := by
  refine ⟨?_, term1200 b, term600 a, by decide⟩
  have h : queryBorrowLimit (posState a b) (unlockExt 0) "addr0000" =
      .ok (0 + uMulD (uMulD b (2000 * E)) (percent 60) + uMulD (uMulD a (1000 * E)) (percent 60)) :=
    rfl
  rw [h, term1200, term600, Nat.zero_add]

/-- C4 counterexample: in the second epoch run the computed deposit_rate is
strictly below target_deposit_rate (so `deposit_rate − target_deposit_rate` is
not ≥ the positive distribution_threshold under any normalization, and the
claimed amount `floor(prev_a_token_supply × (deposit_rate −
target_deposit_rate))` is 0), yet a fund transfer to the market is emitted and
distributed_interest is reported as 53706, not 0. -/
theorem c4_transfer_trigger_counterexample :
    epochRun2 = .ok (epochState2,
      [OutMsg.bankSend "market" "uusd" 53169,
       OutMsg.distributeRewards "custody_batom", OutMsg.distributeRewards "custody_bluna"],
      [("action", "epoch_operations"), ("distributed_interest", "53706"),
       ("deposit_rate", "0.000000482253078703"), ("exchange_rate", "1.25"),
       ("a_token_supply", "1000000")]) ∧
    epochDepositRate epochState1 epochExt2 (mockHeight + 172800) <
      epochState1.config.target_deposit_rate ∧
    0 < epochState1.config.distribution_threshold ∧
    uMulD epochState1.epoch_state.prev_a_token_supply
      (epochDepositRate epochState1 epochExt2 (mockHeight + 172800) -
        epochState1.config.target_deposit_rate) = 0 := by
  refine ⟨by decide, by decide, by decide, by decide⟩

/-- C4 (amended): once the epoch gate and the exchange-rate growth condition
hold, the run succeeds; a fund-transfer instruction to the market collaborator
(net of tax) is emitted exactly when the distributable interest is positive,
where that interest is nonzero only when deposit_rate < distribution_threshold
and equals the threshold-filling missing deposits capped by the
buffer_distribution_rate share of the contract balance; the logged
distributed_interest is that amount (0 when no transfer is made). -/
theorem c4_interest_distribution (st : State) (ext : Externals) (h : Nat)
    (hgate : st.epoch_state.last_executed_height + EPOCH_PERIOD ≤ h)
    (heff : E ≤ decimalDivision ext.marketEpoch.2 st.epoch_state.prev_exchange_rate) :
    executeEpochOperations st ext h =
      .ok ({ st with epoch_state :=
              ⟨epochDepositRate st ext h, ext.marketEpoch.1, ext.marketEpoch.2, h⟩ },
        (if 0 < epochDistributedInterest st ext h then
          [OutMsg.bankSend st.config.market_contract st.config.base_denom
            (deductTax ext (epochDistributedInterest st ext h))]
        else []) ++ st.whitelist.map (fun p => OutMsg.distributeRewards p.2.custody_contract),
        [("action", "epoch_operations"),
         ("distributed_interest", Nat.repr (epochDistributedInterest st ext h)),
         ("deposit_rate", decimalToString (epochDepositRate st ext h)),
         ("exchange_rate", decimalToString ext.marketEpoch.2),
         ("a_token_supply", Nat.repr ext.marketEpoch.1)]) ∧
    (epochDistributedInterest st ext h ≠ 0 →
      epochDepositRate st ext h < st.config.distribution_threshold) ∧
    (st.config.distribution_threshold ≤ epochDepositRate st ext h →
      epochDistributedInterest st ext h = 0) := by
  refine ⟨?_, ?_, ?_⟩
  · unfold executeEpochOperations
    rw [if_neg (Nat.not_lt.mpr hgate), if_neg (Nat.not_lt.mpr heff)]
  · intro hne
    by_contra hge
    exact hne (by simp only [epochDistributedInterest]; rw [if_neg hge])
  · intro hge
    simp only [epochDistributedInterest]
    rw [if_neg (Nat.not_lt.mpr hge)]

/-- C4 witness: the amended theorem applied to the second epoch run of the
test scenario, where the transfer branch is taken. -/
theorem c4_interest_distribution_witness :
    epochRun2 = .ok (epochState2,
      [OutMsg.bankSend "market" "uusd" 53169,
       OutMsg.distributeRewards "custody_batom", OutMsg.distributeRewards "custody_bluna"],
      [("action", "epoch_operations"), ("distributed_interest", "53706"),
       ("deposit_rate", "0.000000482253078703"), ("exchange_rate", "1.25"),
       ("a_token_supply", "1000000")]) := by
  have h := c4_interest_distribution epochState1 epochExt2 (mockHeight + 172800)
    (by decide) (by decide)
  exact h.1.trans (by decide)

/-- C6: ExecuteEpochOperations fails with "Epoch period is not passed" and
changes nothing whenever fewer than EPOCH_PERIOD blocks have elapsed since
last_executed_height — in particular immediately after initialization, since
init sets last_executed_height to the current height — and succeeds once the
period has elapsed (given sane market data), advancing last_executed_height to
the current height. -/
theorem c6_epoch_gating :
    (∀ (st : State) (ext : Externals) (h : Nat),
        h < st.epoch_state.last_executed_height + EPOCH_PERIOD →
        executeEpochOperations st ext h = .error "Epoch period is not passed") ∧
    (∀ (st : State) (ext : Externals) (h : Nat),
        st.epoch_state.last_executed_height + EPOCH_PERIOD ≤ h →
        E ≤ decimalDivision ext.marketEpoch.2 st.epoch_state.prev_exchange_rate →
        ∃ st' msgs logs, executeEpochOperations st ext h = .ok (st', msgs, logs) ∧
          st'.epoch_state.last_executed_height = h) ∧
    (∀ (msg : InitMsg) (h : Nat), (init msg h).epoch_state.last_executed_height = h) ∧
    executeEpochOperations epochStateInit epochExt1 mockHeight =
      .error "Epoch period is not passed" := by
  refine ⟨?_, ?_, fun _ _ => rfl, by decide⟩
  · intro st ext h hlt
    unfold executeEpochOperations
    rw [if_pos hlt]
  · intro st ext h hge heff
    unfold executeEpochOperations
    rw [if_neg (Nat.not_lt.mpr hge), if_neg (Nat.not_lt.mpr heff)]
    exact ⟨_, _, _, rfl, rfl⟩

/-- C6 witness: the gate failure and the success branch, both applied at the
test scenario's inputs. -/
theorem c6_epoch_gating_witness :
    executeEpochOperations epochStateInit epochExt1 (mockHeight + 1) =
      .error "Epoch period is not passed" ∧
    ∃ st' msgs logs,
      executeEpochOperations epochStateInit epochExt1 (mockHeight + 86400) =
        .ok (st', msgs, logs) ∧ st'.epoch_state.last_executed_height = mockHeight + 86400 :=
  ⟨c6_epoch_gating.1 epochStateInit epochExt1 (mockHeight + 1) (by decide),
   c6_epoch_gating.2.1 epochStateInit epochExt1 (mockHeight + 86400) (by decide) (by decide)⟩

theorem alistGet_eq_none {α : Type} (l : List (String × α)) (k : String)
    (h : k ∉ l.map Prod.fst) : alistGet l k = none := by
  induction l with
  | nil => rfl
  | cons p rest ih =>
    simp only [List.map_cons, List.mem_cons] at h
    push_neg at h
    simp only [alistGet]
    rw [if_neg h.1]
    exact ih h.2

theorem subAmount_some_le : ∀ {l l' : List (String × Nat)} {t : String} {a : Nat},
    subAmount l t a = some l' → a ≤ lookupD l t := by
  intro l
  induction l with
  | nil => intro l' t a h; exact absurd h (by simp [subAmount])
  | cons p rest ih =>
    intro l' t a h
    obtain ⟨k, v⟩ := p
    simp only [subAmount] at h
    by_cases h1 : t = k
    · rw [if_pos h1] at h
      by_cases h2 : a ≤ v
      · simpa [lookupD, alistGet, h1] using h2
      · rw [if_neg h2] at h; exact absurd h (by simp)
    · rw [if_neg h1] at h
      cases hr : subAmount rest t a with
      | none => rw [hr] at h; exact absurd h (by simp)
      | some r =>
        rw [hr] at h
        simpa [lookupD, alistGet, h1] using ih hr

theorem subAmount_keys_sublist : ∀ {l l' : List (String × Nat)} {t : String} {a : Nat},
    subAmount l t a = some l' → List.Sublist (l'.map Prod.fst) (l.map Prod.fst) := by
  intro l
  induction l with
  | nil => intro l' t a h; exact absurd h (by simp [subAmount])
  | cons p rest ih =>
    intro l' t a h
    obtain ⟨k, v⟩ := p
    simp only [subAmount] at h
    by_cases h1 : t = k
    · rw [if_pos h1] at h
      by_cases h2 : a ≤ v
      · rw [if_pos h2] at h
        injection h with h3
        subst h3
        by_cases h4 : v - a = 0
        · rw [if_pos h4]
          simp only [List.map_cons]
          exact List.sublist_cons_self _ _
        · rw [if_neg h4]
          simp only [List.map_cons]
          exact List.Sublist.refl _
      · rw [if_neg h2] at h; exact absurd h (by simp)
    · rw [if_neg h1] at h
      cases hr : subAmount rest t a with
      | none => rw [hr] at h; exact absurd h (by simp)
      | some r =>
        rw [hr] at h
        injection h with h3
        subst h3
        simp only [List.map_cons]
        exact List.Sublist.cons₂ _ (ih hr)

theorem subAmount_lookup_le : ∀ {l l' : List (String × Nat)} {t : String} {a : Nat},
    (l.map Prod.fst).Nodup → subAmount l t a = some l' →
    ∀ k, lookupD l' k ≤ lookupD l k := by
  intro l
  induction l with
  | nil => intro l' t a _ h; exact absurd h (by simp [subAmount])
  | cons p rest ih =>
    intro l' t a hnd h k
    obtain ⟨k0, v⟩ := p
    simp only [List.map_cons, List.nodup_cons] at hnd
    obtain ⟨hk0, hndr⟩ := hnd
    simp only [subAmount] at h
    by_cases h1 : t = k0
    · rw [if_pos h1] at h
      by_cases h2 : a ≤ v
      · rw [if_pos h2] at h
        injection h with h3
        subst h3
        by_cases h4 : v - a = 0
        · rw [if_pos h4]
          by_cases h5 : k = k0
          · subst h5
            rw [show lookupD rest k = 0 from by simp [lookupD, alistGet_eq_none rest k hk0]]
            exact Nat.zero_le _
          · simp [lookupD, alistGet, h5]
        · rw [if_neg h4]
          by_cases h5 : k = k0
          · simp only [lookupD, alistGet, if_pos h5, Option.getD_some]
            omega
          · simp [lookupD, alistGet, h5]
      · rw [if_neg h2] at h; exact absurd h (by simp)
    · rw [if_neg h1] at h
      cases hr : subAmount rest t a with
      | none => rw [hr] at h; exact absurd h (by simp)
      | some r =>
        rw [hr] at h
        injection h with h3
        subst h3
        by_cases h5 : k = k0
        · simp [lookupD, alistGet, h5]
        · simp only [lookupD, alistGet, if_neg h5]
          exact ih hndr hr k

theorem decrementBatch_insufficient : ∀ {colls cur : List (String × Nat)} {t : String} {a : Nat},
    (cur.map Prod.fst).Nodup → (t, a) ∈ colls → lookupD cur t < a →
    decrementBatch cur colls = none := by
  intro colls
  induction colls with
  | nil => intro cur t a _ hmem _; exact absurd hmem (List.not_mem_nil _)
  | cons p rest ih =>
    intro cur t a hnd hmem hlt
    obtain ⟨t0, a0⟩ := p
    simp only [decrementBatch]
    cases hs : subAmount cur t0 a0 with
    | none => rfl
    | some cur' =>
      rcases List.mem_cons.mp hmem with heq | hmem'
      · injection heq with ht ha
        subst ht
        subst ha
        have := subAmount_some_le hs
        omega
      · have hnd' : (cur'.map Prod.fst).Nodup := hnd.sublist (subAmount_keys_sublist hs)
        have hle := subAmount_lookup_le hnd hs t
        exact ih hnd' hmem' (by omega)

/-- C2: whenever any pair of an UnlockCollateral batch requests more than the
borrower's currently locked amount for that token (ledger keys being distinct,
as storage guarantees), the whole handler fails with "Cannot unlock more than
you have" — so no state is produced, no entry is modified, and no locked
amount can go negative; instantiated on the test's over-unlock batch. -/
theorem c2_insufficient_collateral :
    (∀ (st : State) (ext : Externals) (sender : String) (colls : List (String × Nat))
        (t : String) (a : Nat),
        ((borrowerColl st sender).map Prod.fst).Nodup →
        (t, a) ∈ colls →
        lookupD (borrowerColl st sender) t < a →
        unlockCollateral st ext sender colls = .error "Cannot unlock more than you have") ∧
    unlockCollateral lockedState (unlockExt 0) "addr0000"
      [("bluna", 1000001), ("batom", 10000001)] =
        .error "Cannot unlock more than you have" := by
  refine ⟨?_, by decide⟩
  intro st ext sender colls t a hnd hmem hlt
  unfold unlockCollateral
  rw [decrementBatch_insufficient hnd hmem hlt]

/-- C2 witness: the general direction applied to the concrete over-unlock of
bluna from the test ledger. -/
theorem c2_insufficient_collateral_witness :
    unlockCollateral lockedState (unlockExt 0) "addr0000" [("bluna", 1000001)] =
      .error "Cannot unlock more than you have" :=
  c2_insufficient_collateral.1 lockedState (unlockExt 0) "addr0000" [("bluna", 1000001)]
    "bluna" 1000001 (by decide) (by decide) (by decide)

theorem charListLt_total (a : List Char) : ∀ (b : List Char), a ≠ b →
    charListLt a b = true ∨ charListLt b a = true := by
  induction a with
  | nil =>
    intro b hne
    cases b with
    | nil => exact absurd rfl hne
    | cons y ys => exact Or.inl rfl
  | cons x xs ih =>
    intro b hne
    cases b with
    | nil => exact Or.inr rfl
    | cons y ys =>
      by_cases h1 : x.toNat < y.toNat
      · left
        unfold charListLt
        rw [if_pos h1]
      · by_cases h2 : y.toNat < x.toNat
        · right
          unfold charListLt
          rw [if_pos h2]
        · have h1' : ¬ x.val.toNat < y.val.toNat := h1
          have h2' : ¬ y.val.toNat < x.val.toNat := h2
          have hxy : x = y := Char.ext (UInt32.toNat.inj (by omega))
          subst hxy
          have hne' : xs ≠ ys := fun hh => hne (by rw [hh])
          rcases ih ys hne' with hlt | hlt
          · left
            unfold charListLt
            rw [if_neg h1, if_neg h1]
            exact hlt
          · right
            unfold charListLt
            rw [if_neg h1, if_neg h1]
            exact hlt

theorem strLtB_total (a b : String) (h : a ≠ b) :
    strLtB a b = true ∨ strLtB b a = true :=
  charListLt_total a.data b.data (fun hd => h (String.ext hd))

theorem alistInsert_head {α : Type} (l : List (String × α)) (k : String) (v : α) :
    (alistInsert l k v).head?.map Prod.fst = some k ∨
    (alistInsert l k v).head?.map Prod.fst = l.head?.map Prod.fst := by
  cases l with
  | nil => exact Or.inl rfl
  | cons p rest =>
    obtain ⟨k', v'⟩ := p
    simp only [alistInsert]
    by_cases h1 : k = k'
    · rw [if_pos h1]
      exact Or.inl rfl
    · rw [if_neg h1]
      by_cases h2 : strLtB k k' = true
      · rw [if_pos h2]
        exact Or.inl rfl
      · rw [if_neg h2]
        exact Or.inr rfl

theorem alistInsert_sorted (l : List (String × WhitelistElem)) (k : String) (v : WhitelistElem)
    (hl : wlKeySorted l) : wlKeySorted (alistInsert l k v) := by
  induction l with
  | nil => exact List.chain'_singleton _
  | cons p rest ih =>
    obtain ⟨k', v'⟩ := p
    rw [wlKeySorted, List.chain'_cons'] at hl
    obtain ⟨hhd, htl⟩ := hl
    simp only [wlKeySorted, alistInsert]
    by_cases h1 : k = k'
    · rw [if_pos h1]
      rw [List.chain'_cons']
      refine ⟨fun b hb => ?_, htl⟩
      show strLtB k b.1 = true
      rw [h1]
      exact hhd b hb
    · rw [if_neg h1]
      by_cases h2 : strLtB k k' = true
      · rw [if_pos h2]
        rw [List.chain'_cons]
        exact ⟨h2, List.chain'_cons'.mpr ⟨hhd, htl⟩⟩
      · rw [if_neg h2]
        rw [List.chain'_cons']
        refine ⟨fun b hb => ?_, ih htl⟩
        show strLtB k' b.1 = true
        have hk'k : strLtB k' k = true := by
          rcases strLtB_total k k' h1 with hx | hx
          · exact absurd hx h2
          · exact hx
        rw [Option.mem_def] at hb
        rcases alistInsert_head rest k v with hh | hh
        · rw [hb] at hh
          simp only [Option.map_some'] at hh
          rw [Option.some.injEq] at hh
          rw [hh]
          exact hk'k
        · rw [hb] at hh
          cases hrest : rest.head? with
          | none =>
            rw [hrest] at hh
            simp at hh
          | some r =>
            rw [hrest] at hh
            simp only [Option.map_some'] at hh
            rw [Option.some.injEq] at hh
            rw [hh]
            exact hhd r (Option.mem_def.mpr hrest)

theorem filter_dr_map (l : List (String × WhitelistElem)) :
    (l.map (fun p => OutMsg.distributeRewards p.2.custody_contract)).filter isDistributeRewards =
      l.map (fun p => OutMsg.distributeRewards p.2.custody_contract) := by
  induction l with
  | nil => rfl
  | cons p t ih => simp [List.filter_cons, isDistributeRewards, ih]

/-- C7: every successful ExecuteEpochOperations emits exactly one
DistributeRewards instruction per whitelist entry, in whitelist order — which
is ascending token identity, since registration keeps the whitelist sorted by
token key — and these instructions are emitted whether or not a fund transfer
to the market also occurred, as the two concrete epoch runs (one without and
one with a transfer) show. -/
theorem c7_reward_fanout :
    (∀ (st : State) (ext : Externals) (h : Nat) (st' : State) (msgs : List OutMsg)
        (logs : List (String × String)),
        executeEpochOperations st ext h = .ok (st', msgs, logs) →
        msgs.filter isDistributeRewards =
          st.whitelist.map (fun p => OutMsg.distributeRewards p.2.custody_contract)) ∧
    (∀ (l : List (String × WhitelistElem)) (k : String) (v : WhitelistElem),
        wlKeySorted l → wlKeySorted (alistInsert l k v)) ∧
    wlKeySorted epochStateInit.whitelist ∧
    (∃ st1 logs1, epochRun1 = .ok (st1,
      [OutMsg.distributeRewards "custody_batom", OutMsg.distributeRewards "custody_bluna"],
      logs1)) ∧
    (∃ st2 logs2, epochRun2 = .ok (st2,
      [OutMsg.bankSend "market" "uusd" 53169, OutMsg.distributeRewards "custody_batom",
       OutMsg.distributeRewards "custody_bluna"], logs2)) := by
  refine ⟨?_, alistInsert_sorted, ?_,
    ⟨epochState1,
     [("action", "epoch_operations"), ("distributed_interest", "0"),
      ("deposit_rate", "0.000002314814814814"), ("exchange_rate", "1.2"),
      ("a_token_supply", "1000000")], by decide⟩,
    ⟨epochState2,
     [("action", "epoch_operations"), ("distributed_interest", "53706"),
      ("deposit_rate", "0.000000482253078703"), ("exchange_rate", "1.25"),
      ("a_token_supply", "1000000")], by decide⟩⟩
  · intro st ext h st' msgs logs heq
    by_cases h1 : h < st.epoch_state.last_executed_height + EPOCH_PERIOD
    · unfold executeEpochOperations at heq
      rw [if_pos h1] at heq
      exact absurd heq (by simp)
    · by_cases h2 : decimalDivision ext.marketEpoch.2 st.epoch_state.prev_exchange_rate < E
      · unfold executeEpochOperations at heq
        rw [if_neg h1, if_pos h2] at heq
        exact absurd heq (by simp)
      · unfold executeEpochOperations at heq
        rw [if_neg h1, if_neg h2] at heq
        injection heq with h3
        injection h3 with hst h4
        injection h4 with hmsgs hlogs
        subst hmsgs
        by_cases h5 : 0 < epochDistributedInterest st ext h
        · rw [if_pos h5]
          simp [List.filter_append, List.filter_cons, isDistributeRewards, filter_dr_map]
        · rw [if_neg h5]
          simp [filter_dr_map]
  · have hwl : epochStateInit.whitelist =
        [("batom", ⟨"custody_batom", percent 60⟩), ("bluna", ⟨"custody_bluna", percent 60⟩)] := by
      decide
    rw [wlKeySorted, hwl]
    exact List.chain'_cons.mpr ⟨by decide, List.chain'_singleton _⟩

/-- C7 witness: the fan-out equation applied to the second epoch run, whose
message list contains the transfer ahead of the two reward instructions. -/
theorem c7_reward_fanout_witness :
    ([OutMsg.bankSend "market" "uusd" 53169, OutMsg.distributeRewards "custody_batom",
      OutMsg.distributeRewards "custody_bluna"].filter isDistributeRewards) =
      epochState1.whitelist.map (fun p => OutMsg.distributeRewards p.2.custody_contract) :=
  c7_reward_fanout.1 epochState1 epochExt2 (mockHeight + 172800) epochState2
    [OutMsg.bankSend "market" "uusd" 53169, OutMsg.distributeRewards "custody_batom",
     OutMsg.distributeRewards "custody_bluna"]
    [("action", "epoch_operations"), ("distributed_interest", "53706"),
     ("deposit_rate", "0.000000482253078703"), ("exchange_rate", "1.25"),
     ("a_token_supply", "1000000")] (by decide)

/-- C1: UnlockCollateral succeeds exactly when the borrow limit of the
tentative post-unlock ledger is at least the borrower's current debt; in the
test scenario (positions 1,000,000 bluna at price 1000 and 10,000,000 batom at
price 2000, LTV 0.6, limit 12,600,000,000): at debt 12,600,000,000 unlocking
any 1 ≤ a units of either token (within the locked amount) fails with "Cannot
unlock collateral more than LTV", while at debt 12,599,999,400 unlocking
exactly 1 bluna succeeds and unlocking 2 fails. -/
theorem c1_unlock_ltv_boundary :
    (∀ (st : State) (ext : Externals) (sender : String)
        (colls newCur : List (String × Nat)) (L : Nat),
        decrementBatch (borrowerColl st sender) colls = some newCur →
        computeBorrowLimit (setBorrowerColl st sender newCur) ext sender = .ok L →
        ((∃ r, unlockCollateral st ext sender colls = .ok r) ↔ ext.loanAmount sender ≤ L)) ∧
    (∀ a : Nat, 1 ≤ a → a ≤ 1000000 →
        unlockCollateral lockedState (unlockExt 12600000000) "addr0000" [("bluna", a)] =
          .error "Cannot unlock collateral more than LTV") ∧
    (∀ a : Nat, 1 ≤ a → a ≤ 10000000 →
        unlockCollateral lockedState (unlockExt 12600000000) "addr0000" [("batom", a)] =
          .error "Cannot unlock collateral more than LTV") ∧
    unlockCollateral lockedState (unlockExt 12599999400) "addr0000" [("bluna", 1)] =
      .ok (setBorrowerColl lockedState "addr0000" [("batom", 10000000), ("bluna", 999999)],
        [OutMsg.unlockMsg "bluna" "addr0000" 1],
        [("action", "unlock_collateral"), ("borrower", "addr0000")]) ∧
    unlockCollateral lockedState (unlockExt 12599999400) "addr0000" [("bluna", 2)] =
      .error "Cannot unlock collateral more than LTV" := by
  refine ⟨?_, ?_, ?_, by decide, by decide⟩
  · intro st ext sender colls newCur L hdec hlim
    simp only [unlockCollateral, hdec, hlim]
    by_cases hc : L < ext.loanAmount sender
    · rw [if_pos hc]
      constructor
      · rintro ⟨r, hr⟩
        exact absurd hr (by simp)
      · intro hle
        exact absurd hle (Nat.not_le.mpr hc)
    · rw [if_neg hc]
      exact ⟨fun _ => Nat.not_lt.mp hc, fun _ => ⟨_, rfl⟩⟩
  · intro a ha1 ha2
    by_cases hz : a = 1000000
    · subst hz
      decide
    · have hs2 : subAmount [("batom", 10000000), ("bluna", 1000000)] "bluna" a =
          some [("batom", 10000000), ("bluna", 1000000 - a)] := by
        have h0 : subAmount [("batom", 10000000), ("bluna", 1000000)] "bluna" a =
            (match (if a ≤ 1000000 then some (if 1000000 - a = 0 then ([] : List (String × Nat))
                else [("bluna", 1000000 - a)]) else none) with
             | some rest' => some (("batom", 10000000) :: rest')
             | none => none) := rfl
        rw [h0, if_pos (show a ≤ 1000000 by omega),
          if_neg (show ¬(1000000 - a = 0) by omega)]
      have hdec : decrementBatch (borrowerColl lockedState "addr0000") [("bluna", a)] =
          some [("batom", 10000000), ("bluna", 1000000 - a)] := by
        have h0 : decrementBatch (borrowerColl lockedState "addr0000") [("bluna", a)] =
            (match subAmount [("batom", 10000000), ("bluna", 1000000)] "bluna" a with
             | some cur' => decrementBatch cur' []
             | none => none) := rfl
        rw [h0, hs2]
        rfl
      have hlim : computeBorrowLimit (setBorrowerColl lockedState "addr0000"
          [("batom", 10000000), ("bluna", 1000000 - a)]) (unlockExt 12600000000) "addr0000" =
          .ok (0 + 12000000000 + uMulD (uMulD (1000000 - a) (1000 * E)) (percent 60)) := rfl
      simp only [unlockCollateral, hdec, hlim]
      rw [term600]
      have hloan : (unlockExt 12600000000).loanAmount "addr0000" = 12600000000 := rfl
      rw [hloan]
      rw [if_pos (show 0 + 12000000000 + 600 * (1000000 - a) < 12600000000 by omega)]
  · intro a ha1 ha2
    by_cases hz : a = 10000000
    · subst hz
      decide
    · have hs2 : subAmount [("batom", 10000000), ("bluna", 1000000)] "batom" a =
          some [("batom", 10000000 - a), ("bluna", 1000000)] := by
        have h0 : subAmount [("batom", 10000000), ("bluna", 1000000)] "batom" a =
            (if a ≤ 10000000 then some (if 10000000 - a = 0 then [("bluna", 1000000)]
              else [("batom", 10000000 - a), ("bluna", 1000000)]) else none) := rfl
        rw [h0, if_pos (show a ≤ 10000000 by omega),
          if_neg (show ¬(10000000 - a = 0) by omega)]
      have hdec : decrementBatch (borrowerColl lockedState "addr0000") [("batom", a)] =
          some [("batom", 10000000 - a), ("bluna", 1000000)] := by
        have h0 : decrementBatch (borrowerColl lockedState "addr0000") [("batom", a)] =
            (match subAmount [("batom", 10000000), ("bluna", 1000000)] "batom" a with
             | some cur' => decrementBatch cur' []
             | none => none) := rfl
        rw [h0, hs2]
        rfl
      have hlim : computeBorrowLimit (setBorrowerColl lockedState "addr0000"
          [("batom", 10000000 - a), ("bluna", 1000000)]) (unlockExt 12600000000) "addr0000" =
          .ok (0 + uMulD (uMulD (10000000 - a) (2000 * E)) (percent 60) + 600000000) := rfl
      simp only [unlockCollateral, hdec, hlim]
      rw [term1200]
      have hloan : (unlockExt 12600000000).loanAmount "addr0000" = 12600000000 := rfl
      rw [hloan]
      rw [if_pos (show 0 + 1200 * (10000000 - a) + 600000000 < 12600000000 by omega)]

/-- C1 witness: the boundary conjuncts applied at concrete inputs — the
general iff at the successful 1-bluna unlock under debt 12,599,999,400, and
the failing 1-unit unlocks at the exact limit. -/
theorem c1_unlock_ltv_boundary_witness :
    ((∃ r, unlockCollateral lockedState (unlockExt 12599999400) "addr0000" [("bluna", 1)] =
        .ok r) ↔ (unlockExt 12599999400).loanAmount "addr0000" ≤ 12599999400) ∧
    unlockCollateral lockedState (unlockExt 12600000000) "addr0000" [("bluna", 1)] =
      .error "Cannot unlock collateral more than LTV" ∧
    unlockCollateral lockedState (unlockExt 12600000000) "addr0000" [("batom", 1)] =
      .error "Cannot unlock collateral more than LTV" :=
  ⟨c1_unlock_ltv_boundary.1 lockedState (unlockExt 12599999400) "addr0000" [("bluna", 1)]
      [("batom", 10000000), ("bluna", 999999)] 12599999400 (by decide) (by decide),
   c1_unlock_ltv_boundary.2.1 1 (by decide) (by decide),
   c1_unlock_ltv_boundary.2.2.1 1 (by decide) (by decide)⟩

end Overseer

section Sanity
open Overseer
example : uMulD 1000000 (1000 * E) = 1000000000 := by decide
example : decimalDivision (125 * E / 100) (12 * E / 10) = 1041666666666666666 := by decide
example : strLtB "batom" "bluna" = true := by decide
example : alistGet [("a", 1), ("b", 2)] "b" = some 2 := by decide
example : decimalToString (percent 60) = "0.6" := by decide
example : decimalToString 2314814814814 = "0.000002314814814814" := by decide
example : lockedState.collaterals = [("addr0000", [("batom", 10000000), ("bluna", 1000000)])] := by decide
example : queryBorrowLimit lockedState (unlockExt 0) "addr0000" = .ok 12600000000 := by decide
example : epochDepositRate epochStateInit epochExt1 (mockHeight + 86400) = 2314814814814 := by decide
example : epochDistributedInterest epochState1 epochExt2 (mockHeight + 172800) = 53706 := by decide
example : deductTax epochExt2 53706 = 53169 := by decide
end Sanity
